import Mathlib

/-! Verification of the multi-source hotel research aggregation engine.

Shallow embedding of `apps/ai_agent/services/research_orchestrator.py` and
`apps/ai_agent/services/data_extractor.py` (the merge, defaults and scoring
logic of the research orchestrator), together with theorems settling the
spec claims about it.

Modelling conventions:
* Python `None` becomes `Option.none`; a missing dictionary key and a key
  stored with value `None` are both modelled as `none` (the code only ever
  reads these values through `.get(...)`, which does not distinguish a key
  mapped to `None` from an absent key when the value is consumed through
  truthiness checks).
* Python floats are modelled as exact rationals `ℚ`.
* Python truthiness is made explicit per type: a string is truthy iff it is
  non-empty, a number iff it is non-zero, a list/dict iff it is non-empty.
* `dict` iteration order (insertion order) is modelled by association lists
  in the insertion order of the source text.  The single use of an
  unordered `set` (amenity deduplication) is modelled as first-occurrence
  deduplication; no claim depends on the amenity order.
-/

namespace StayFull

set_option maxRecDepth 100000

/-- Truthiness of an optional string (Python `if s:`). -/
def truthyOS : Option String → Bool
  | none => false
  | some s => s != ""

/-- Truthiness of an optional rational (Python `if x:` on a number). -/
def truthyOQ : Option ℚ → Bool
  | none => false
  | some q => q != 0

/-- Truthiness of an optional integer (Python `if n:` on an int). -/
def truthyOI : Option Int → Bool
  | none => false
  | some n => n != 0

/-- One room-type record, as produced by an adapter
(`{"name": ..., "beds": ..., "capacity": ..., "description": ...}`). -/
structure Room where
  name : String := ""
  beds : Option String := none
  capacity : Option Int := none
  description : Option String := none
deriving DecidableEq

/-- GPS payload of a Google Places result (`{"lat": ..., "lng": ...}`). -/
structure LocationInfo where
  lat : Option ℚ := none
  lng : Option ℚ := none
deriving DecidableEq

/-- One provider's answer: the sparse field map handed back by an adapter
call, as read by `_merge_data_multi_source` and
`_calculate_overall_confidence`. -/
structure SourceResult where
  error : Option String := none
  name : Option String := none
  hotel_name : Option String := none
  address : Option String := none
  phone : Option String := none
  website : Option String := none
  description : Option String := none
  room_types : Option (List Room) := none
  amenities : Option (List String) := none
  total_rooms : Option Int := none
  check_in_time : Option String := none
  check_out_time : Option String := none
  policies : Option (List (String × String)) := none
  location : Option LocationInfo := none
  photos : Option (List String) := none
  confidence : Option ℚ := none
deriving DecidableEq

/-- Python truthiness of the result dictionary (`if result:`): the dict is
truthy iff it has at least one key. -/
def SourceResult.isNonEmpty (r : SourceResult) : Bool :=
  r.error.isSome || r.name.isSome || r.hotel_name.isSome || r.address.isSome ||
  r.phone.isSome || r.website.isSome || r.description.isSome ||
  r.room_types.isSome || r.amenities.isSome || r.total_rooms.isSome ||
  r.check_in_time.isSome || r.check_out_time.isSome || r.policies.isSome ||
  r.location.isSome || r.photos.isSome || r.confidence.isSome

/-- The merged profile: the dictionary built by `_merge_data_multi_source`,
then mutated by `_apply_defaults` and annotated by `research_hotel`.
Metadata keys (`_source_*`, `_overall_confidence`, ...) are ordinary fields
here. -/
structure Profile where
  hotel_name : Option String := none
  address : Option String := none
  phone : Option String := none
  website : Option String := none
  description : Option String := none
  source_description : Option String := none
  room_types : List Room := []
  source_room_types : Option String := none
  amenities : List String := []
  source_amenities : Option String := none
  latitude : Option ℚ := none
  longitude : Option ℚ := none
  source_gps : Option String := none
  photos : Option (List String) := none
  total_rooms : Option Int := none
  check_in_time : Option String := none
  check_out_time : Option String := none
  policies : List (String × String) := []
  timezone : Option String := none
  source_timezone : Option String := none
  currency : Option String := none
  source_currency : Option String := none
  tax_rate : Option ℚ := none
  source_tax_rate : Option String := none
  language : Option String := none
  source_language : Option String := none
  source_check_in : Option String := none
  source_check_out : Option String := none
  overall_confidence : Option ℚ := none
  sources_used : List String := []
  hotel_name_searched : Option String := none
  city_searched : Option String := none
  state_searched : Option String := none
deriving DecidableEq

/-! ## Scalar field resolution (`_consensus_vote`, `_choose_best_with_consensus`) -/

/-- Keep a string value only when it is truthy (`if v`). -/
def validStr : Option String → Option String
  | none => none
  | some s => if s == "" then none else some s

/-- The non-None, non-empty values of a named source map, in the map's
insertion order (`values = {source: val for source, val in sources.items() if val}`). -/
def availableValues (sources : List (String × Option String)) :
    List (String × String) :=
  sources.filterMap fun p => (validStr p.2).map fun s => (p.1, s)

/-- Number of occurrences of `v` in `vs` (a `collections.Counter` count). -/
def countVal (vs : List String) (v : String) : Nat :=
  (vs.filter fun x => x == v).length

/-- Leftmost element maximising `f` (ties keep the earlier element).  This is
the head of `Counter.most_common(...)`, which sorts by count descending and
is stable, so ties are ordered by first insertion. -/
def argmaxBy (f : String → Nat) : List String → Option String
  | [] => none
  | v :: vs =>
    match argmaxBy f vs with
    | none => some v
    | some w => if f v < f w then some w else some v

/-- `_consensus_vote(values)`: drop falsy values, then return the most common
remaining value (Python `Counter(valid).most_common(1)[0][0]`), or `None` if
nothing remains.  The `prefer` parameter of the Python function is never
used by its body and is omitted. -/
def consensus_vote (values : List (Option String)) : Option String :=
  let valid := values.filterMap validStr
  argmaxBy (countVal valid) valid

/-- The consensus stage of `_choose_best_with_consensus`: the first entry of
`Counter(values).most_common()` whose count is at least 2.  Since
`most_common` enumerates counts in decreasing order, this is the (leftmost)
most common value provided it occurs at least twice. -/
def consensusWinner (valid : List String) : Option String :=
  match argmaxBy (countVal valid) valid with
  | some v => if 2 ≤ countVal valid v then some v else none
  | none => none

/-- First value found by walking `authority_order` and looking each authority
name up in the available-value map. -/
def firstAuthorityValue (authority_order : List String)
    (values : List (String × String)) : Option String :=
  authority_order.findSome? fun a => (values.find? fun p => p.1 == a).map Prod.snd

/-- `_choose_best_with_consensus(field, sources, authority_order)`:
1. `None` if no source has a truthy value;
2. else the consensus value (some value shared by ≥ 2 sources);
3. else the first available value in `authority_order`;
4. else the first available value in the map's iteration order
   (`next(iter(values.values()))`). -/
def choose_best_with_consensus (sources : List (String × Option String))
    (authority_order : List String) : Option String :=
  let values := availableValues sources
  if values.isEmpty then none
  else
    match consensusWinner (values.map Prod.snd) with
    | some v => some v
    | none =>
      match firstAuthorityValue authority_order values with
      | some v => some v
      | none => values.head?.map Prod.snd

/-- Modelled from the spec (claim C1 as stated): count occurrences of each
non-null value; if any value is produced by at least two sources it wins;
otherwise the first available value in the field's fixed authority ordering
is taken; a field with no available value is null.  No other clause yields a
value. -/
def resolveScalarClaimed (sources : List (String × Option String))
    (authority_order : List String) : Option String :=
  let avail := availableValues sources
  match consensusWinner (avail.map Prod.snd) with
  | some v => some v
  | none => firstAuthorityValue authority_order avail

/-- Modelled from the spec (claim C1 as amended): as `resolveScalarClaimed`,
but when no source named in the authority ordering supplies a value the
first available value in the source map's iteration order is still taken,
so the field is null only when no source supplied a truthy value. -/
def resolveScalarAmended (sources : List (String × Option String))
    (authority_order : List String) : Option String :=
  let avail := availableValues sources
  match consensusWinner (avail.map Prod.snd) with
  | some v => some v
  | none =>
    match firstAuthorityValue authority_order avail with
    | some v => some v
    | none => avail.head?.map Prod.snd

/-! ## Long-form text (`_choose_longest_description`) -/

/-- The candidate filter of `_choose_longest_description`: keep `d` only when
`d and len(d) > 50`. -/
def validDesc : Option String → Option String
  | none => none
  | some s => if 50 < s.length then some s else none

/-- `_choose_longest_description(descriptions)`: keep the candidates `d` with
`d and len(d) > 50`, then return `max(valid, key=len)` (Python `max` keeps
the first of several maximal elements), or `None` when nothing is kept. -/
def choose_longest_description (descriptions : List (Option String)) :
    Option String :=
  let valid := descriptions.filterMap validDesc
  match valid with
  | [] => none
  | d :: rest => some (rest.foldl (fun best x => if best.length < x.length then x else best) d)

/-- Modelled from the spec (claim C5 as stated): discard exactly the
candidates shorter than 50 characters (null candidates included), and select
the longest of the remaining candidates; null if none remains. -/
def specLongestClaimed (descriptions : List (Option String)) : Option String :=
  let valid := descriptions.filterMap fun d =>
    match d with
    | some s => if 50 ≤ s.length then some s else none
    | none => none
  match valid with
  | [] => none
  | d :: rest => some (rest.foldl (fun best x => if best.length < x.length then x else best) d)

/-! ## Room-type aggregation (`_aggregate_room_types`) -/

/-- Python `str.lower()`, character-wise. -/
def lowerStr (s : String) : String := ⟨s.data.map Char.toLower⟩

/-- Python `str.upper()`, character-wise. -/
def upperStr (s : String) : String := ⟨s.data.map Char.toUpper⟩

/-- Python `str.strip()`: drop leading and trailing whitespace. -/
def trimStr (s : String) : String :=
  ⟨((s.data.dropWhile Char.isWhitespace).reverse.dropWhile
    Char.isWhitespace).reverse⟩

/-- The normalised room name: `room.get('name', '').lower().strip()`. -/
def normKey (r : Room) : String := trimStr (lowerStr r.name)

/-- Merging one further `room` record into an already aggregated record:
`for key, value in room.items(): if value and not aggregated[name].get(key):
aggregated[name][key] = value` — each sub-field is copied only when the new
value is truthy and the stored one is falsy. -/
def fillRoom (old new : Room) : Room :=
  { name := if new.name != "" && old.name == "" then new.name else old.name
    beds := if truthyOS new.beds && !truthyOS old.beds then new.beds else old.beds
    capacity := if truthyOI new.capacity && !truthyOI old.capacity then new.capacity
      else old.capacity
    description := if truthyOS new.description && !truthyOS old.description then
      new.description else old.description }

/-- One step of `_aggregate_room_types`: skip rooms whose normalised name is
empty; insert a new entry for an unseen name; otherwise fill the existing
entry's missing sub-fields. -/
def aggStep (acc : List (String × Room)) (room : Room) : List (String × Room) :=
  let key := normKey room
  if key == "" then acc
  else if (acc.map Prod.fst).contains key then
    acc.map fun p => if p.1 == key then (p.1, fillRoom p.2 room) else p
  else acc ++ [(key, room)]

/-- `_aggregate_room_types(room_lists)`: fold every room of every list through
`aggStep` and return the aggregated records in insertion order
(`list(aggregated.values())`). -/
def aggregate_room_types (room_lists : List (List Room)) : List Room :=
  (room_lists.foldl (fun acc lst => lst.foldl aggStep acc) []).map Prod.snd

/-- Modelled from the spec (claim C6): aggregate across sources by matching on
the normalised room name (case-insensitive, trimmed), and fill each missing
sub-field from whichever source has it, first-write-wins per sub-field.
Output keeps first-appearance order of the normalised names; rooms with an
empty normalised name are dropped. -/
def specAggA : List Room → List (String × Room)
  | [] => []
  | r :: rs =>
    let k := normKey r
    if k == "" then specAggA rs
    else (k, (rs.filter fun x => normKey x == k).foldl fillRoom r) ::
      specAggA (rs.filter fun x => normKey x != k)
termination_by l => l.length
decreasing_by
  · simp only [List.length_cons]
    exact Nat.lt_succ_of_le (Nat.le_refl _)
  · simp only [List.length_cons]
    exact Nat.lt_succ_of_le (List.length_filter_le _ _)

/-- Modelled from the spec (claim C6): the aggregated room list obtained from
grouping by normalised name with first-write-wins sub-field filling. -/
def specAggregateRooms (rooms : List Room) : List Room :=
  (specAggA rooms).map Prod.snd

/-! ## Numeric consensus, photos, policies -/

/-- Insertion into a sorted list of integers (ascending). -/
def insertSorted (x : Int) : List Int → List Int
  | [] => [x]
  | y :: ys => if x ≤ y then x :: y :: ys else y :: insertSorted x ys

/-- Ascending sort, as performed by `statistics.median`. -/
def sortInts (l : List Int) : List Int := l.foldr insertSorted []

/-- `int(statistics.median(valid))` for a non-empty list of integers: the
middle element for odd length, else `int((a + b) / 2)` for the two middle
elements — Python's `int(...)` truncates toward zero, which `Int.tdiv`
also does. -/
def medianInt (l : List Int) : Int :=
  let s := sortInts l
  let n := s.length
  if n % 2 = 1 then s.getD (n / 2) 0
  else Int.tdiv (s.getD (n / 2 - 1) 0 + s.getD (n / 2) 0) 2

/-- `_numeric_consensus(values)`: drop `None`, return the single value if
exactly one remains, else the median. -/
def numeric_consensus (values : List (Option Int)) : Option Int :=
  let valid := values.filterMap id
  match valid with
  | [] => none
  | [v] => some v
  | _ => some (medianInt valid)

/-- `_choose_best(google_places.photos, website.photos)` specialised to photo
lists: the first value that is neither `None` nor empty. -/
def choose_best_photos (a b : Option (List String)) : Option (List String) :=
  match a with
  | some l => if l.isEmpty then
      (match b with
       | some m => if m.isEmpty then none else some m
       | none => none)
    else some l
  | none =>
    match b with
    | some m => if m.isEmpty then none else some m
    | none => none

/-- The `or`-chain for policies:
`perplexity.get('policies') or ... or gemini.get('policies') or {}`. -/
def firstTruthyPolicies : List (Option (List (String × String))) →
    List (String × String)
  | [] => []
  | some l :: rest => if l.isEmpty then firstTruthyPolicies rest else l
  | none :: rest => firstTruthyPolicies rest

/-! ## `_merge_data_multi_source` -/

/-- Field-by-field translation of `_merge_data_multi_source(perplexity,
openai, anthropic, gemini, google_places, website)`.  Source-map insertion
orders and authority orders are copied verbatim from the call sites. -/
def merge_data_multi_source (perplexity openai anthropic gemini google_places
    website : SourceResult) : Profile :=
  let hotel_name := consensus_vote
    [google_places.name, perplexity.hotel_name, openai.hotel_name,
     anthropic.hotel_name, gemini.hotel_name, website.hotel_name]
  let address := choose_best_with_consensus
    [("Google Places", google_places.address), ("Perplexity", perplexity.address),
     ("OpenAI", openai.address), ("Anthropic", anthropic.address),
     ("Gemini", gemini.address), ("Website", website.address)]
    ["Google Places", "Perplexity", "Anthropic", "OpenAI", "Website"]
  let phone := choose_best_with_consensus
    [("Google Places", google_places.phone), ("Perplexity", perplexity.phone),
     ("OpenAI", openai.phone), ("Anthropic", anthropic.phone),
     ("Gemini", gemini.phone), ("Website", website.phone)]
    ["Google Places", "Perplexity", "Anthropic", "OpenAI", "Website"]
  let website_url := choose_best_with_consensus
    [("Perplexity", perplexity.website), ("OpenAI", openai.website),
     ("Anthropic", anthropic.website), ("Gemini", gemini.website),
     ("Google Places", google_places.website), ("Website", website.website)]
    ["Perplexity", "Google Places", "Anthropic", "OpenAI", "Website"]
  let description := choose_longest_description
    [perplexity.description, openai.description, anthropic.description,
     gemini.description, website.description]
  let perplexity_rooms := perplexity.room_types.getD []
  let rooms_and_tag :=
    if perplexity_rooms.isEmpty then
      (aggregate_room_types
        [openai.room_types.getD [], anthropic.room_types.getD [],
         gemini.room_types.getD [], website.room_types.getD []],
       "AI aggregation (fallback)")
    else (perplexity_rooms, "Perplexity (web-grounded)")
  let all_amenities :=
    (perplexity.amenities.getD []) ++ (openai.amenities.getD []) ++
    (anthropic.amenities.getD []) ++ (gemini.amenities.getD []) ++
    (google_places.amenities.getD []) ++ (website.amenities.getD [])
  let amenity_source_count :=
    (([perplexity, openai, anthropic, gemini, website]).filter fun s =>
      !(s.amenities.getD []).isEmpty).length
  { hotel_name := hotel_name
    address := address
    phone := phone
    website := website_url
    description := description
    source_description := some "AI aggregation"
    room_types := rooms_and_tag.1
    source_room_types := some rooms_and_tag.2
    amenities := all_amenities.eraseDups
    source_amenities := some ("Aggregated from " ++ toString amenity_source_count
      ++ " sources")
    latitude := match google_places.location with
      | some loc => loc.lat
      | none => none
    longitude := match google_places.location with
      | some loc => loc.lng
      | none => none
    source_gps := match google_places.location with
      | some _ => some "Google Places"
      | none => none
    photos := choose_best_photos google_places.photos website.photos
    total_rooms := numeric_consensus
      [perplexity.total_rooms, openai.total_rooms, anthropic.total_rooms,
       gemini.total_rooms]
    check_in_time := consensus_vote
      [perplexity.check_in_time, openai.check_in_time, anthropic.check_in_time,
       gemini.check_in_time]
    check_out_time := consensus_vote
      [perplexity.check_out_time, openai.check_out_time, anthropic.check_out_time,
       gemini.check_out_time]
    policies := firstTruthyPolicies
      [perplexity.policies, openai.policies, anthropic.policies, gemini.policies] }

/-! ## `infer_smart_defaults` (data_extractor.py) -/

/-- The resulting record of `infer_smart_defaults`. -/
structure SmartDefaults where
  currency : String
  tax_rate : ℚ
  language : String
deriving DecidableEq

/-- The currency mapping of `infer_smart_defaults`, in source order. -/
def currency_map : List (String × String) :=
  [("United States", "USD"), ("US", "USD"), ("USA", "USD"),
   ("Canada", "CAD"),
   ("United Kingdom", "GBP"), ("UK", "GBP"),
   ("France", "EUR"), ("Germany", "EUR"), ("Spain", "EUR"),
   ("Italy", "EUR"), ("Portugal", "EUR"), ("Netherlands", "EUR"),
   ("Belgium", "EUR"), ("Austria", "EUR"), ("Greece", "EUR"),
   ("Mexico", "MXN"),
   ("Australia", "AUD"),
   ("Japan", "JPY"),
   ("China", "CNY"),
   ("India", "INR"),
   ("Brazil", "BRL"),
   ("South Africa", "ZAR"),
   ("Switzerland", "CHF"),
   ("Sweden", "SEK"),
   ("Norway", "NOK"),
   ("Denmark", "DKK")]

/-- The US state hotel tax-rate table of `infer_smart_defaults`, verbatim. -/
def us_tax_rates : List (String × ℚ) :=
  [("AL", 10.0), ("AK", 5.0), ("AZ", 10.8), ("AR", 12.6), ("CA", 10.5),
   ("CO", 10.4), ("CT", 15.0), ("DE", 8.0), ("FL", 13.0), ("GA", 13.0),
   ("HI", 14.4), ("ID", 9.0), ("IL", 11.6), ("IN", 12.0), ("IA", 12.0),
   ("KS", 11.3), ("KY", 11.3), ("LA", 14.0), ("ME", 9.5), ("MD", 11.5),
   ("MA", 11.7), ("MI", 11.0), ("MN", 13.9), ("MS", 12.2), ("MO", 12.5),
   ("MT", 7.0), ("NE", 12.5), ("NV", 13.4), ("NH", 9.0), ("NJ", 13.6),
   ("NM", 12.9), ("NY", 14.8), ("NC", 12.8), ("ND", 12.0), ("OH", 14.5),
   ("OK", 13.5), ("OR", 11.5), ("PA", 11.4), ("RI", 13.0), ("SC", 12.1),
   ("SD", 10.0), ("TN", 15.3), ("TX", 17.0), ("UT", 12.3), ("VT", 10.0),
   ("VA", 10.8), ("WA", 15.6), ("WV", 12.0), ("WI", 13.4), ("WY", 10.0)]

/-- Contiguous-sublist test on character lists. -/
def infixOfList (needle : List Char) : List Char → Bool
  | [] => needle.isEmpty
  | c :: cs => needle.isPrefixOf (c :: cs) || infixOfList needle cs

/-- Python `needle.lower() in haystack.lower()` on strings (substring test). -/
def substrOf (needle haystack : String) : Bool :=
  infixOfList (lowerStr needle).data (lowerStr haystack).data

/-- `infer_smart_defaults(country, state, city)`: currency from the country
map (country normalised by the first map key that is a case-insensitive
substring of `country`), hotel tax rate from the US state table (default
10.0), fixed `"en"` language.  `city` is accepted and ignored, as in the
source. -/
def infer_smart_defaults (country : String) (state : Option String)
    (_city : Option String) : SmartDefaults :=
  let country_normalized :=
    ((currency_map.find? fun p => substrOf p.1 country).map Prod.fst).getD country
  let currency :=
    ((currency_map.find? fun p => p.1 == country_normalized).map Prod.snd).getD "USD"
  let tax_rate : ℚ :=
    if (country_normalized == "US" || country_normalized == "USA" ||
        country_normalized == "United States") && truthyOS state then
      ((us_tax_rates.find? fun p => p.1 == upperStr (state.getD "")).map
        Prod.snd).getD 10.0
    else if country_normalized == "Canada" then 13.0
    else if country_normalized == "United Kingdom" || country_normalized == "UK"
      then 20.0
    else if country_normalized == "France" || country_normalized == "Germany" ||
        country_normalized == "Spain" || country_normalized == "Italy" then 20.0
    else 10.0
  { currency := currency, tax_rate := tax_rate, language := "en" }

/-! ## `_apply_defaults` -/

/-- The first statement of `_apply_defaults`: timezone from GPS coordinates,
when both are truthy and no timezone is present. -/
def tz_step (data : Profile) (tzLookup : ℚ → ℚ → String) : Profile :=
  if truthyOQ data.latitude && truthyOQ data.longitude &&
      !truthyOS data.timezone then
    { data with
      timezone := some (tzLookup (data.latitude.getD 0) (data.longitude.getD 0))
      source_timezone := some "GPS inference" }
  else data

/-- The second statement of `_apply_defaults`: currency and tax rate from the
location-defaults table (country hard-coded to `"United States"` at the call
site) when either is falsy. -/
def currency_tax_step (data : Profile) (city : String) (state : Option String) :
    Profile :=
  if !truthyOS data.currency || !truthyOQ data.tax_rate then
    let defaults := infer_smart_defaults "United States" state (some city)
    let d2a :=
      if !truthyOS data.currency then
        { data with currency := some defaults.currency
                    source_currency := some "Location inference" }
      else data
    if !truthyOQ d2a.tax_rate then
      { d2a with tax_rate := some defaults.tax_rate
                 source_tax_rate := some "Location inference" }
    else d2a
  else data

/-- Industry-standard check-in time default. -/
def check_in_step (data : Profile) : Profile :=
  if !truthyOS data.check_in_time then
    { data with check_in_time := some "3:00 PM"
                source_check_in := some "Industry standard" }
  else data

/-- Industry-standard check-out time default. -/
def check_out_step (data : Profile) : Profile :=
  if !truthyOS data.check_out_time then
    { data with check_out_time := some "11:00 AM"
                source_check_out := some "Industry standard" }
  else data

/-- Default language. -/
def language_step (data : Profile) : Profile :=
  if !truthyOS data.language then
    { data with language := some "en", source_language := some "Default" }
  else data

/-- `_apply_defaults(data, city, state)`: the five mutation statements of the
Python body, in order.  The coordinate→timezone collaborator
(`google_places.infer_timezone_from_location`) is passed in as `tzLookup`. -/
def apply_defaults (data : Profile) (city : String) (state : Option String)
    (tzLookup : ℚ → ℚ → String) : Profile :=
  language_step (check_out_step (check_in_step
    (currency_tax_step (tz_step data tzLookup) city state)))

/-! ## `_calculate_overall_confidence` -/

/-- The raw per-source results map returned by `_launch_parallel_research`
(fixed keys, in insertion order). -/
structure Results where
  perplexity : SourceResult
  openai : SourceResult
  anthropic : SourceResult
  gemini : SourceResult
  google_places : SourceResult
  website : SourceResult
deriving DecidableEq

/-- `results.items()` in insertion order. -/
def resultsList (rs : Results) : List (String × SourceResult) :=
  [("perplexity", rs.perplexity), ("openai", rs.openai),
   ("anthropic", rs.anthropic), ("gemini", rs.gemini),
   ("google_places", rs.google_places), ("website", rs.website)]

/-- `result and 'error' not in result`: the criterion for a source having
succeeded, used both by the scorer and by `_sources_used`. -/
def succeededB (r : SourceResult) : Bool := r.isNonEmpty && r.error.isNone

/-- The fixed critical-field checklist of `_calculate_overall_confidence`,
counted with Python truthiness on the merged data. -/
def criticalFieldCount (data : Profile) : Nat :=
  (([truthyOS data.hotel_name, truthyOS data.address, truthyOS data.phone,
     truthyOS data.website, truthyOS data.description,
     !data.room_types.isEmpty, !data.amenities.isEmpty]).filter id).length

/-- `_calculate_overall_confidence(data, source_results)`: weighted sum of the
source-success ratio (× 0.4), the critical-field completeness ratio (× 0.4)
and `(perplexity_conf + website_conf) / 2` (× 0.2, missing confidences read
as 0), capped at 1.0. -/
def calculate_overall_confidence (data : Profile) (source_results : Results) : ℚ :=
  let sources_succeeded : ℚ :=
    ((resultsList source_results).filter fun p => succeededB p.2).length
  let source_weight := sources_succeeded / 6 * 0.4
  let fields_present : ℚ := criticalFieldCount data
  let completeness_weight := fields_present / 7 * 0.4
  let perplexity_conf := source_results.perplexity.confidence.getD 0
  let website_conf := source_results.website.confidence.getD 0
  let avg_conf := (perplexity_conf + website_conf) / 2
  let confidence_weight := avg_conf * 0.2
  min (source_weight + completeness_weight + confidence_weight) 1

/-- Modelled from the spec (claim C2 as stated): the self-reported component
is the average of the self-reported confidences of the sources that provide
one (0 when no source reports a confidence), × 0.2. -/
def specScoreClaimed (data : Profile) (source_results : Results) : ℚ :=
  let confs := (resultsList source_results).filterMap fun p => p.2.confidence
  let selfReported : ℚ :=
    if confs.isEmpty then 0 else (confs.foldl (· + ·) 0) / confs.length
  min ((((resultsList source_results).countP fun p => succeededB p.2 : ℚ) / 6) * 0.4
    + ((criticalFieldCount data : ℚ) / 7) * 0.4 + selfReported * 0.2) 1

/-- Modelled from the spec (claim C2 as amended): identical formula, except
that the self-reported component always averages over the fixed two-source
set (web-search-grounded and website-extraction sources), a missing
confidence counting as 0; other sources' confidences are ignored. -/
def specScoreAmended (data : Profile) (source_results : Results) : ℚ :=
  min 1 ((((resultsList source_results).countP fun p => succeededB p.2 : ℚ)) * 0.4 / 6
    + (criticalFieldCount data : ℚ) * 0.4 / 7
    + (source_results.perplexity.confidence.getD 0
       + source_results.website.confidence.getD 0) * 0.2 / 2)

/-! ## `_launch_parallel_research` and `research_hotel` -/

/-- The outcome of one external adapter call: a structured result, a Python
`None` (Google Places "not found"), or a raised exception. -/
inductive Outcome where
  | ok (r : SourceResult)
  | okNone
  | exn (msg : String)

/-- The behaviour of the external collaborators during one run.  The website
scraper is a function of the discovered URL. -/
structure AdapterRun where
  perplexity : Outcome
  openai : Outcome
  anthropic : Outcome
  google_places : Outcome
  website : String → Outcome

/-- A `{"error": msg}` dictionary. -/
def errorOnly (msg : String) : SourceResult := { error := some msg }

/-- The result of one adapter call in exception semantics: a raise becomes
`Except.error`. -/
def adapterCallE (o : Outcome) : Except String (Option SourceResult) :=
  match o with
  | .ok r => Except.ok (some r)
  | .okNone => Except.ok none
  | .exn e => Except.error e

/-- One `try: ... except Exception as e: results[k] = {"error": str(e)}`
block: a raised exception is caught and converted into an error result;
a Python `None` result becomes the empty dict (`places_data or {}`). -/
def tryCatch (x : Except String (Option SourceResult)) : SourceResult :=
  match x with
  | .ok (some r) => r
  | .ok none => {}
  | .error e => errorOnly e

/-- `_launch_parallel_research(hotel_name, city, state)`: every adapter call
is individually wrapped; Gemini is never configured (`gemini_client = None`
in `__init__`), so its slot is always `{"error": "Gemini not configured"}`;
the website scraper runs only when a truthy URL was discovered from the
Perplexity result or else the Google Places result. -/
def launch_parallel_research (A : AdapterRun) : Results :=
  let pp := tryCatch (adapterCallE A.perplexity)
  let oa := tryCatch (adapterCallE A.openai)
  let an := tryCatch (adapterCallE A.anthropic)
  let ge := errorOnly "Gemini not configured"
  let gp := tryCatch (adapterCallE A.google_places)
  let website_url := if truthyOS pp.website then pp.website else gp.website
  let ws :=
    if truthyOS website_url then tryCatch (adapterCallE (A.website (website_url.getD "")))
    else {}
  { perplexity := pp, openai := oa, anthropic := an, gemini := ge,
    google_places := gp, website := ws }

/-- The pure tail of `research_hotel` after the raw results are collected:
merge, apply defaults, score, annotate metadata. -/
def assembleProfile (hotel_name city : String) (state : Option String)
    (rs : Results) (tzLookup : ℚ → ℚ → String) : Profile :=
  let merged := merge_data_multi_source rs.perplexity rs.openai rs.anthropic
    rs.gemini rs.google_places rs.website
  let complete := apply_defaults merged city state tzLookup
  let confidence := calculate_overall_confidence complete rs
  { complete with
    overall_confidence := some confidence
    sources_used := ((resultsList rs).filter fun p => succeededB p.2).map Prod.fst
    hotel_name_searched := some hotel_name
    city_searched := some city
    state_searched := state }

/-- `research_hotel(hotel_name, city, state)` in exception semantics.  The
body performs no validation of `hotel_name` or `city`; every adapter call is
individually caught inside `launch_parallel_research`, so the run is a pure
`Except.ok`. -/
def research_hotelE (hotel_name city : String) (state : Option String)
    (A : AdapterRun) (tzLookup : ℚ → ℚ → String) : Except String Profile :=
  let rs := launch_parallel_research A
  Except.ok (assembleProfile hotel_name city state rs tzLookup)

/-- Modelled from the spec (claim C4 as stated): a Query with a missing
required `name`/`city` is rejected before any adapter call is issued. -/
def specValidQuery (hotel_name city : String) : Bool :=
  hotel_name != "" && city != ""

/-- A source result whose every non-error field has been replaced by null. -/
def stripData (r : SourceResult) : SourceResult := { error := r.error }

/-- A source result contributed no usable data: every data field is null and
the result is an empty dictionary, an error dictionary, or an error
dictionary additionally carrying the failed source's 0.0 self-reported
confidence — the shapes produced by the coordinator's exception handlers and
by the Perplexity/website-extraction failure paths
(`{"error": ..., "confidence": 0.0}`). -/
def SourceResult.noUsableData (r : SourceResult) : Prop :=
  (r.name = none ∧ r.hotel_name = none ∧ r.address = none ∧ r.phone = none ∧
   r.website = none ∧ r.description = none ∧ r.room_types = none ∧
   r.amenities = none ∧ r.total_rooms = none ∧ r.check_in_time = none ∧
   r.check_out_time = none ∧ r.policies = none ∧ r.location = none ∧
   r.photos = none) ∧
  (r.confidence = none ∨ (r.confidence = some 0 ∧ r.error.isSome = true))

instance (r : SourceResult) : Decidable r.noUsableData := by
  unfold SourceResult.noUsableData; infer_instance

/-! ## Concrete inputs used by counterexamples and witnesses -/

/-- A 40-character description candidate. -/
def descLen40 : String := ⟨List.replicate 40 'a'⟩

/-- An 80-character description candidate. -/
def descLen80 : String := ⟨List.replicate 80 'b'⟩

/-- A 120-character description candidate. -/
def descLen120 : String := ⟨List.replicate 120 'c'⟩

/-- A description candidate of exactly 50 characters. -/
def descLen50 : String := ⟨List.replicate 50 'e'⟩

/-- A results map where only Perplexity answered, self-reporting
confidence 0.8. -/
def resultsOnlyPerp : Results :=
  { perplexity := { hotel_name := some "Seaside Inn", confidence := some 0.8 }
    openai := {}, anthropic := {}, gemini := {}, google_places := {},
    website := {} }

/-- A results map where every source failed or returned nothing, in the
shapes the repository actually produces: the failed Perplexity and
website-extraction calls report `{"error": ..., "confidence": 0.0}`. -/
def resultsAllFailed : Results :=
  { perplexity := { error := some "Perplexity API not configured"
                    confidence := some 0 }
    openai := errorOnly "OpenAI not configured"
    anthropic := errorOnly "Anthropic not configured"
    gemini := errorOnly "Gemini not configured"
    google_places := {}
    website := { error := some "Could not access website"
                 confidence := some 0 } }

/-- An adapter run whose Perplexity call succeeds with a hotel name and
whose other calls fail or find nothing. -/
def adapterRunPerpOnly : AdapterRun :=
  { perplexity := .ok { hotel_name := some "Grand X" }
    openai := .exn "api down", anthropic := .exn "api down"
    google_places := .okNone, website := fun _ => .exn "unreachable" }

/-- A constant coordinate→timezone collaborator. -/
def tzConst : ℚ → ℚ → String := fun _ _ => "America/New_York"

/-- OpenAI room types used by the aggregation witness. -/
def roomsFromOpenAI : SourceResult :=
  { room_types := some [{ name := "Queen Room", beds := some "1 Queen" }] }

/-- Anthropic room types used by the aggregation witness: the first record
matches the OpenAI room up to case and surrounding blanks. -/
def roomsFromAnthropic : SourceResult :=
  { room_types := some [{ name := "  queen room", capacity := some 2 },
                        { name := "King" }] }

/-! # Helper lemmas -/

theorem argmaxBy_mem {f : String → Nat} :
    ∀ {l : List String} {w : String}, argmaxBy f l = some w → w ∈ l := by
  intro l
  induction l with
  | nil => intro w h; simp [argmaxBy] at h
  | cons v vs ih =>
    intro w h
    simp only [argmaxBy] at h
    cases hv : argmaxBy f vs with
    | none => rw [hv] at h; simp at h; simp [h]
    | some u =>
      rw [hv] at h
      by_cases hlt : f v < f u
      · simp [hlt] at h; subst h; exact List.mem_cons_of_mem _ (ih hv)
      · simp [hlt] at h; simp [h]

theorem argmaxBy_cons_isSome (f : String → Nat) (v : String) (vs : List String) :
    (argmaxBy f (v :: vs)).isSome := by
  simp only [argmaxBy]
  cases argmaxBy f vs with
  | none => simp
  | some u => by_cases h : f v < f u <;> simp [h]

theorem argmaxBy_le {f : String → Nat} :
    ∀ {l : List String} {w : String}, argmaxBy f l = some w →
      ∀ x ∈ l, f x ≤ f w := by
  intro l
  induction l with
  | nil => intro w h; simp [argmaxBy] at h
  | cons v vs ih =>
    intro w h x hx
    simp only [argmaxBy] at h
    cases hv : argmaxBy f vs with
    | none =>
      rw [hv] at h; simp at h; subst h
      rcases List.mem_cons.mp hx with rfl | hx'
      · exact Nat.le_refl _
      · cases vs with
        | nil => simp at hx'
        | cons a as =>
          exfalso
          have := argmaxBy_cons_isSome f a as
          rw [hv] at this
          simp at this
    | some u =>
      rw [hv] at h
      by_cases hlt : f v < f u
      · simp [hlt] at h; subst h
        rcases List.mem_cons.mp hx with rfl | hx'
        · exact Nat.le_of_lt hlt
        · exact ih hv x hx'
      · simp [hlt] at h; subst h
        rcases List.mem_cons.mp hx with rfl | hx'
        · exact Nat.le_refl _
        · exact Nat.le_trans (ih hv x hx') (Nat.le_of_not_lt hlt)

theorem argmaxBy_cons_cases {f : String → Nat} {v : String} {vs : List String}
    {w : String} (h : argmaxBy f (v :: vs) = some w) : w = v ∨ f v < f w := by
  simp only [argmaxBy] at h
  cases hv : argmaxBy f vs with
  | none => rw [hv] at h; simp at h; exact Or.inl h.symm
  | some u =>
    rw [hv] at h
    by_cases hlt : f v < f u
    · simp [hlt] at h; subst h; exact Or.inr hlt
    · simp [hlt] at h; exact Or.inl h.symm

theorem countVal_pos_of_mem {l : List String} {x : String} (hx : x ∈ l) :
    1 ≤ countVal l x := by
  unfold countVal
  have : x ∈ l.filter fun y => y == x := by
    apply List.mem_filter.mpr; exact ⟨hx, by simp⟩
  exact List.length_pos.mpr (List.ne_nil_of_mem this)

theorem availableValues_map_snd (sources : List (String × Option String)) :
    (availableValues sources).map Prod.snd =
      (sources.map Prod.snd).filterMap validStr := by
  induction sources with
  | nil => rfl
  | cons p ps ih =>
    simp only [availableValues, List.filterMap_cons, List.map_cons] at *
    cases h : validStr p.2 with
    | none => simpa [h] using ih
    | some s => simpa [h] using ih

theorem findSome?_const_none {α : Type} (l : List α) :
    (l.findSome? fun _ => (none : Option String)) = none := by
  induction l with
  | nil => rfl
  | cons a as ih => simp [List.findSome?_cons, ih]

/-- `_consensus_vote` coincides with `_choose_best_with_consensus` run with an
empty authority ordering: the plurality winner is either a value shared by at
least two sources, or (all counts being 1) the first available value. -/
theorem consensus_vote_eq_choose_best (sources : List (String × Option String)) :
    consensus_vote (sources.map Prod.snd) =
      choose_best_with_consensus sources [] := by
  unfold consensus_vote choose_best_with_consensus
  rw [← availableValues_map_snd]
  cases hval : availableValues sources with
  | nil => simp [argmaxBy]
  | cons x xs =>
    simp only [List.isEmpty_cons, Bool.false_eq_true, if_false, List.map_cons]
    cases hmax : argmaxBy (countVal (x.2 :: xs.map Prod.snd))
        (x.2 :: xs.map Prod.snd) with
    | none =>
      exfalso
      have := argmaxBy_cons_isSome (countVal (x.2 :: xs.map Prod.snd)) x.2
        (xs.map Prod.snd)
      rw [hmax] at this
      simp at this
    | some w =>
      by_cases h2 : 2 ≤ countVal (x.2 :: xs.map Prod.snd) w
      · simp [consensusWinner, hmax, h2]
      · have hw : w = x.2 := by
          rcases argmaxBy_cons_cases hmax with h | h
          · exact h
          · exfalso
            have hx2 : x.2 ∈ x.2 :: xs.map Prod.snd := List.mem_cons_self _ _
            have := countVal_pos_of_mem hx2
            omega
        subst hw
        simp [consensusWinner, hmax, h2, firstAuthorityValue]

/-- `_choose_best_with_consensus` satisfies the amended scalar-resolution
rule. -/
theorem choose_best_eq_amended (sources : List (String × Option String))
    (authority_order : List String) :
    choose_best_with_consensus sources authority_order =
      resolveScalarAmended sources authority_order := by
  unfold choose_best_with_consensus resolveScalarAmended
  cases hval : availableValues sources with
  | nil =>
    simp [consensusWinner, argmaxBy, firstAuthorityValue, findSome?_const_none]
  | cons x xs => simp

/-! # Claim theorems -/

/-- **C1, counterexample.**  The claim states that a scalar identity field
with no 2-source consensus is resolved from the fixed authority ordering and
is null when that yields nothing.  For the phone field, when Gemini — which
appears in no authority ordering — is the only source with a value, the code
still resolves the field to Gemini's value, while the claimed rule yields
null. -/
theorem C1_counterexample :
    (merge_data_multi_source {} {} {} { phone := some "555-0100" } {} {}).phone
      = some "555-0100" ∧
    resolveScalarClaimed
      [("Google Places", none), ("Perplexity", none), ("OpenAI", none),
       ("Anthropic", none), ("Gemini", some "555-0100"), ("Website", none)]
      ["Google Places", "Perplexity", "Anthropic", "OpenAI", "Website"]
      = none := by
  exact ⟨by decide, by decide⟩

/-- **C1, amended.**  Each scalar identity field (hotel name, phone, website,
check-in time, check-out time) is resolved by: the most frequent available
value provided at least 2 sources produce it; otherwise the first available
value in the field's fixed authority ordering; otherwise the first available
value in the source map's iteration order (so the field is null only when no
source produced a truthy value).  Hotel name and check-in/check-out use an
empty authority ordering (pure plurality vote with first-listed fallback). -/
theorem C1_scalar_resolution_amended (perplexity openai anthropic gemini
    google_places website : SourceResult) :
    (merge_data_multi_source perplexity openai anthropic gemini google_places
        website).hotel_name =
      resolveScalarAmended
        [("Google Places", google_places.name),
         ("Perplexity", perplexity.hotel_name), ("OpenAI", openai.hotel_name),
         ("Anthropic", anthropic.hotel_name), ("Gemini", gemini.hotel_name),
         ("Website", website.hotel_name)] [] ∧
    (merge_data_multi_source perplexity openai anthropic gemini google_places
        website).phone =
      resolveScalarAmended
        [("Google Places", google_places.phone), ("Perplexity", perplexity.phone),
         ("OpenAI", openai.phone), ("Anthropic", anthropic.phone),
         ("Gemini", gemini.phone), ("Website", website.phone)]
        ["Google Places", "Perplexity", "Anthropic", "OpenAI", "Website"] ∧
    (merge_data_multi_source perplexity openai anthropic gemini google_places
        website).website =
      resolveScalarAmended
        [("Perplexity", perplexity.website), ("OpenAI", openai.website),
         ("Anthropic", anthropic.website), ("Gemini", gemini.website),
         ("Google Places", google_places.website), ("Website", website.website)]
        ["Perplexity", "Google Places", "Anthropic", "OpenAI", "Website"] ∧
    (merge_data_multi_source perplexity openai anthropic gemini google_places
        website).check_in_time =
      resolveScalarAmended
        [("Perplexity", perplexity.check_in_time),
         ("OpenAI", openai.check_in_time), ("Anthropic", anthropic.check_in_time),
         ("Gemini", gemini.check_in_time)] [] ∧
    (merge_data_multi_source perplexity openai anthropic gemini google_places
        website).check_out_time =
      resolveScalarAmended
        [("Perplexity", perplexity.check_out_time),
         ("OpenAI", openai.check_out_time),
         ("Anthropic", anthropic.check_out_time),
         ("Gemini", gemini.check_out_time)] [] := by
  refine ⟨?_, ?_, ?_, ?_, ?_⟩
  · have h := consensus_vote_eq_choose_best
      [("Google Places", google_places.name),
       ("Perplexity", perplexity.hotel_name), ("OpenAI", openai.hotel_name),
       ("Anthropic", anthropic.hotel_name), ("Gemini", gemini.hotel_name),
       ("Website", website.hotel_name)]
    simp only [List.map_cons, List.map_nil] at h
    exact h.trans (choose_best_eq_amended _ _)
  · exact choose_best_eq_amended _ _
  · exact choose_best_eq_amended _ _
  · have h := consensus_vote_eq_choose_best
      [("Perplexity", perplexity.check_in_time),
       ("OpenAI", openai.check_in_time), ("Anthropic", anthropic.check_in_time),
       ("Gemini", gemini.check_in_time)]
    simp only [List.map_cons, List.map_nil] at h
    exact h.trans (choose_best_eq_amended _ _)
  · have h := consensus_vote_eq_choose_best
      [("Perplexity", perplexity.check_out_time),
       ("OpenAI", openai.check_out_time),
       ("Anthropic", anthropic.check_out_time),
       ("Gemini", gemini.check_out_time)]
    simp only [List.map_cons, List.map_nil] at h
    exact h.trans (choose_best_eq_amended _ _)

/-- **C10.**  When no value reaches 2-source consensus and no source named in
the authority ordering supplies a value, `_choose_best_with_consensus` still
returns the first available candidate in the source map's iteration order,
and the resolved field is non-null exactly when at least one source supplied
a truthy value. -/
theorem C10_first_available_fallback (sources : List (String × Option String))
    (authority_order : List String) :
    ((choose_best_with_consensus sources authority_order).isSome ↔
      availableValues sources ≠ []) ∧
    (consensusWinner ((availableValues sources).map Prod.snd) = none →
     firstAuthorityValue authority_order (availableValues sources) = none →
     choose_best_with_consensus sources authority_order =
       (availableValues sources).head?.map Prod.snd) := by
  unfold choose_best_with_consensus
  cases hval : availableValues sources with
  | nil => simp
  | cons x xs =>
    constructor
    · simp only [List.isEmpty_cons, Bool.false_eq_true, if_false]
      cases consensusWinner ((x :: xs).map Prod.snd) with
      | some v => simp
      | none =>
        cases firstAuthorityValue authority_order (x :: xs) with
        | some v => simp
        | none => simp
    · intro h1 h2
      simp only [List.isEmpty_cons, Bool.false_eq_true, if_false, h1, h2]

/-- **C10, witness.**  Gemini is the only source with a phone value and
appears in no authority list; the resolver still returns Gemini's value. -/
theorem C10_first_available_fallback_witness :
    choose_best_with_consensus
      [("Google Places", none), ("Perplexity", none), ("OpenAI", none),
       ("Anthropic", none), ("Gemini", some "555-0100"), ("Website", none)]
      ["Google Places", "Perplexity", "Anthropic", "OpenAI", "Website"]
      = some "555-0100" := by
  exact ((C10_first_available_fallback
    [("Google Places", none), ("Perplexity", none), ("OpenAI", none),
     ("Anthropic", none), ("Gemini", some "555-0100"), ("Website", none)]
    ["Google Places", "Perplexity", "Anthropic", "OpenAI", "Website"]).2
    (by decide) (by decide)).trans (by decide)

/-- **C2, counterexample.**  With only Perplexity succeeding and
self-reporting confidence 0.8, the code computes the self-reported component
as `(0.8 + 0) / 2 × 0.2 = 0.08`, not the claimed average over the sources
that provide a confidence (`0.8 × 0.2 = 0.16`): the total is `107/525`, the
claimed formula gives `149/525`. -/
theorem C2_counterexample :
    calculate_overall_confidence { hotel_name := some "Seaside Inn" }
        resultsOnlyPerp ≠
      specScoreClaimed { hotel_name := some "Seaside Inn" } resultsOnlyPerp := by
  have hcode : calculate_overall_confidence { hotel_name := some "Seaside Inn" }
      resultsOnlyPerp = 107 / 525 := by
    simp +decide [calculate_overall_confidence, resultsOnlyPerp, resultsList,
      succeededB, SourceResult.isNonEmpty, criticalFieldCount, truthyOS]
    rw [min_def]
    norm_num
  have hclaim : specScoreClaimed { hotel_name := some "Seaside Inn" }
      resultsOnlyPerp = 149 / 525 := by
    simp +decide [specScoreClaimed, resultsOnlyPerp, resultsList,
      succeededB, SourceResult.isNonEmpty, criticalFieldCount, truthyOS]
    rw [min_def]
    norm_num
  rw [hcode, hclaim]
  norm_num

/-- **C2, amended.**  `_calculate_overall_confidence` returns exactly
`min(1.0, (successful_sources / 6) × 0.4 + (critical_fields_present / 7) ×
0.4 + ((perplexity_confidence + website_confidence) / 2) × 0.2)`, where a
missing confidence counts as 0 and the confidences of the other four sources
are ignored. -/
theorem C2_confidence_formula_amended (data : Profile)
    (source_results : Results) :
    calculate_overall_confidence data source_results =
      specScoreAmended data source_results := by
  unfold calculate_overall_confidence specScoreAmended
  rw [min_comm]
  congr 1
  rw [List.countP_eq_length_filter]
  ring

/-- **C5, counterexample.**  The claim keeps every candidate not shorter than
50 characters, so a single candidate of exactly 50 characters would be
selected; the code requires `len(d) > 50` and discards it, yielding null. -/
theorem C5_counterexample :
    choose_longest_description [some descLen50] = none ∧
      specLongestClaimed [some descLen50] = some descLen50 := by
  exact ⟨by decide, by decide⟩

theorem foldl_max_len_init_le : ∀ (l : List String) (init : String),
    init.length ≤
      (l.foldl (fun best x => if best.length < x.length then x else best)
        init).length := by
  intro l
  induction l with
  | nil => intro init; simp
  | cons a as ih =>
    intro init
    simp only [List.foldl_cons]
    refine Nat.le_trans ?_ (ih (if init.length < a.length then a else init))
    split
    · omega
    · exact Nat.le_refl _

theorem foldl_max_len_le : ∀ (l : List String) (init x : String), x ∈ l →
    x.length ≤
      (l.foldl (fun best x => if best.length < x.length then x else best)
        init).length := by
  intro l
  induction l with
  | nil => intro init x hx; simp at hx
  | cons a as ih =>
    intro init x hx
    simp only [List.foldl_cons]
    rcases List.mem_cons.mp hx with rfl | hx'
    · refine Nat.le_trans ?_
        (foldl_max_len_init_le as (if init.length < x.length then x else init))
      split
      · exact Nat.le_refl _
      · omega
    · exact ih _ x hx'

theorem foldl_max_len_mem : ∀ (l : List String) (init : String),
    (l.foldl (fun best x => if best.length < x.length then x else best) init)
      ∈ init :: l := by
  intro l
  induction l with
  | nil => intro init; simp
  | cons a as ih =>
    intro init
    simp only [List.foldl_cons]
    have h := ih (if init.length < a.length then a else init)
    rcases List.mem_cons.mp h with h' | h'
    · rw [h']; split
      · exact List.mem_cons_of_mem _ (List.mem_cons_self _ _)
      · exact List.mem_cons_self _ _
    · exact List.mem_cons_of_mem _ (List.mem_cons_of_mem _ h')

theorem validDesc_eq_some {d : Option String} {b : String} :
    validDesc d = some b ↔ d = some b ∧ 50 < b.length := by
  cases d with
  | none => simp [validDesc]
  | some s =>
    simp only [validDesc]
    constructor
    · intro h
      split at h
      · cases h; simp_all
      · cases h
    · rintro ⟨hs, hb⟩
      cases hs
      simp [hb]

/-- **C5, amended.**  `_choose_longest_description` discards exactly the
candidates of length at most 50 (strictly more than 50 characters are
required) and selects the longest of the remaining candidates (first of
several equally long ones); if no candidate remains the description is null.
In particular, among candidates of lengths 40, 80 and 120 characters the
120-character one is selected. -/
theorem C5_longest_description_amended (descriptions : List (Option String)) :
    (choose_longest_description descriptions = none →
      ∀ s, some s ∈ descriptions → s.length ≤ 50) ∧
    (∀ m, choose_longest_description descriptions = some m →
      some m ∈ descriptions ∧ 50 < m.length ∧
        ∀ s, some s ∈ descriptions → s.length ≤ m.length) := by
  unfold choose_longest_description
  have hmem : ∀ b : String, b ∈ descriptions.filterMap validDesc ↔
      some b ∈ descriptions ∧ 50 < b.length := by
    intro b
    rw [List.mem_filterMap]
    constructor
    · rintro ⟨a, ha, hfa⟩
      rcases validDesc_eq_some.mp hfa with ⟨rfl, hb⟩
      exact ⟨ha, hb⟩
    · rintro ⟨ha, hb⟩
      exact ⟨some b, ha, validDesc_eq_some.mpr ⟨rfl, hb⟩⟩
  cases hval : descriptions.filterMap validDesc with
  | nil =>
    constructor
    · intro _ s hs
      by_contra hlen
      have : s ∈ descriptions.filterMap validDesc :=
        (hmem s).mpr ⟨hs, by omega⟩
      rw [hval] at this
      simp at this
    · intro m hm
      simp at hm
  | cons d rest =>
    constructor
    · intro h
      simp at h
    · intro m hm
      have hm' : rest.foldl
          (fun best x => if best.length < x.length then x else best) d = m := by
        simpa using hm
      have hmm : m ∈ d :: rest := hm' ▸ foldl_max_len_mem rest d
      have hmval : some m ∈ descriptions ∧ 50 < m.length := by
        rw [← hval] at hmm
        exact (hmem m).mp hmm
      refine ⟨hmval.1, hmval.2, ?_⟩
      intro s hs
      by_cases hslen : 50 < s.length
      · have hsval : s ∈ d :: rest := by
          rw [← hval]
          exact (hmem s).mpr ⟨hs, hslen⟩
        rcases List.mem_cons.mp hsval with rfl | hs'
        · exact hm' ▸ foldl_max_len_init_le rest s
        · exact hm' ▸ foldl_max_len_le rest d s hs'
      · omega

/-- **C5, amended, witness.**  The 40/80/120-character scenario: the
120-character candidate is selected, it is longer than 50 characters, and
every candidate's length is bounded by its length. -/
theorem C5_longest_description_amended_witness :
    some descLen120 ∈ [some descLen40, some descLen80, some descLen120] ∧
      50 < descLen120.length ∧
      ∀ s, some s ∈ [some descLen40, some descLen80, some descLen120] →
        s.length ≤ descLen120.length :=
  (C5_longest_description_amended
    [some descLen40, some descLen80, some descLen120]).2 descLen120 (by decide)

/-- **C9, counterexample.**  `_merge_data_multi_source` never inspects
`error`: a result carrying `{"error": ..., "hotel_name": ...}` contributes
its hotel name, so replacing its non-error fields with nulls changes the
merge output. -/
theorem C9_counterexample :
    (merge_data_multi_source
      { error := some "boom", hotel_name := some "Seaside Inn" }
      {} {} {} {} {}).hotel_name = some "Seaside Inn" ∧
    (merge_data_multi_source
      (stripData { error := some "boom", hotel_name := some "Seaside Inn" })
      {} {} {} {} {}).hotel_name = none := by
  exact ⟨by decide, by decide⟩

/-- **C9, amended.**  A SourceResult whose only non-null field is `error`
(the only error shape the coordinator ever produces) contributes no field
values: in every position, merging with `{"error": msg}` gives the same
profile as merging with the empty result.  (Merge itself never reads
`error`, so a result carrying both an error and data fields would
contribute those fields — see the counterexample.) -/
theorem C9_error_result_contributes_nothing (msg : String)
    (perplexity openai anthropic gemini google_places website : SourceResult) :
    merge_data_multi_source (errorOnly msg) openai anthropic gemini
        google_places website =
      merge_data_multi_source {} openai anthropic gemini google_places website ∧
    merge_data_multi_source perplexity (errorOnly msg) anthropic gemini
        google_places website =
      merge_data_multi_source perplexity {} anthropic gemini google_places
        website ∧
    merge_data_multi_source perplexity openai (errorOnly msg) gemini
        google_places website =
      merge_data_multi_source perplexity openai {} gemini google_places
        website ∧
    merge_data_multi_source perplexity openai anthropic (errorOnly msg)
        google_places website =
      merge_data_multi_source perplexity openai anthropic {} google_places
        website ∧
    merge_data_multi_source perplexity openai anthropic gemini (errorOnly msg)
        website =
      merge_data_multi_source perplexity openai anthropic gemini {} website ∧
    merge_data_multi_source perplexity openai anthropic gemini google_places
        (errorOnly msg) =
      merge_data_multi_source perplexity openai anthropic gemini google_places
        {} :=
  ⟨rfl, rfl, rfl, rfl, rfl, rfl⟩

/-- **C4, counterexample.**  No validation of `name`/`city` exists: with both
empty, the run is not rejected — the adapter calls are issued and the
returned profile contains the Perplexity adapter's hotel name. -/
theorem C4_counterexample :
    specValidQuery "" "" = false ∧
    (research_hotelE "" "" none adapterRunPerpOnly tzConst).toOption.map
      (fun p => p.hotel_name) = some (some "Grand X") := by
  exact ⟨rfl, by decide⟩

/-- **C4, amended.**  `research_hotel` performs no validation of the query:
for every query — malformed (empty name/city) included — and every adapter
behaviour, raised included, the run catches each adapter failure
individually and returns normally with the assembled profile. -/
theorem C4_no_validation_always_returns (hotel_name city : String)
    (state : Option String) (A : AdapterRun) (tzLookup : ℚ → ℚ → String) :
    research_hotelE hotel_name city state A tzLookup =
      Except.ok (assembleProfile hotel_name city state
        (launch_parallel_research A) tzLookup) := rfl

theorem tz_step_currency_tax (data : Profile) (tzLookup : ℚ → ℚ → String) :
    (tz_step data tzLookup).currency = data.currency ∧
      (tz_step data tzLookup).tax_rate = data.tax_rate := by
  unfold tz_step; split <;> exact ⟨rfl, rfl⟩

theorem currency_tax_step_currency (data : Profile) (city : String)
    (state : Option String) :
    (currency_tax_step data city state).currency =
      if truthyOS data.currency then data.currency
      else some (infer_smart_defaults "United States" state (some city)).currency := by
  unfold currency_tax_step
  by_cases hc : truthyOS data.currency <;> by_cases ht : truthyOQ data.tax_rate <;>
    simp [hc, ht]

theorem currency_tax_step_tax (data : Profile) (city : String)
    (state : Option String) :
    (currency_tax_step data city state).tax_rate =
      if truthyOQ data.tax_rate then data.tax_rate
      else some (infer_smart_defaults "United States" state (some city)).tax_rate := by
  unfold currency_tax_step
  by_cases hc : truthyOS data.currency <;> by_cases ht : truthyOQ data.tax_rate <;>
    simp [hc, ht]

theorem late_steps_currency_tax (data : Profile) :
    (language_step (check_out_step (check_in_step data))).currency
        = data.currency ∧
      (language_step (check_out_step (check_in_step data))).tax_rate
        = data.tax_rate := by
  unfold language_step check_out_step check_in_step
  split <;> split <;> split <;> exact ⟨rfl, rfl⟩

/-- **C8.**  With state `"FL"` and no currency or tax rate found by research,
`_apply_defaults` sets currency to `"USD"` and tax rate to exactly 13.0 (a
percentage); the US table has exactly 50 distinct state entries with
`NY → 14.8` and `CA → 10.5`, and the country-level fallback (no state, or a
state not in the table) gives tax rate 10.0. -/
theorem C8_florida_defaults (data : Profile) (city : String)
    (tzLookup : ℚ → ℚ → String)
    (hcur : truthyOS data.currency = false)
    (htax : truthyOQ data.tax_rate = false) :
    (apply_defaults data city (some "FL") tzLookup).currency = some "USD" ∧
    (apply_defaults data city (some "FL") tzLookup).tax_rate = some 13.0 ∧
    us_tax_rates.length = 50 ∧
    (us_tax_rates.map Prod.fst).Nodup ∧
    ((us_tax_rates.find? fun p => p.1 == "NY").map Prod.snd) = some 14.8 ∧
    ((us_tax_rates.find? fun p => p.1 == "CA").map Prod.snd) = some 10.5 ∧
    infer_smart_defaults "United States" none none =
      { currency := "USD", tax_rate := 10.0, language := "en" } ∧
    infer_smart_defaults "United States" (some "ZZ") none =
      { currency := "USD", tax_rate := 10.0, language := "en" } := by
  have hfl : infer_smart_defaults "United States" (some "FL") (some city) =
      { currency := "USD", tax_rate := 13.0, language := "en" } := by
    simp +decide [infer_smart_defaults, currency_map, us_tax_rates, substrOf,
      truthyOS, List.find?_cons, upperStr, lowerStr, infixOfList]
  have h1 := tz_step_currency_tax data tzLookup
  have h2 := currency_tax_step_currency (tz_step data tzLookup) city (some "FL")
  have h3 := currency_tax_step_tax (tz_step data tzLookup) city (some "FL")
  have h4 := late_steps_currency_tax
    (currency_tax_step (tz_step data tzLookup) city (some "FL"))
  refine ⟨?_, ?_, by decide, by decide,
    by simp +decide [us_tax_rates, List.find?_cons],
    by simp +decide [us_tax_rates, List.find?_cons],
    by simp +decide [infer_smart_defaults, currency_map, us_tax_rates, substrOf,
      truthyOS, List.find?_cons, upperStr, lowerStr, infixOfList],
    by simp +decide [infer_smart_defaults, currency_map, us_tax_rates, substrOf,
      truthyOS, List.find?_cons, upperStr, lowerStr, infixOfList]⟩
  · show (language_step (check_out_step (check_in_step
      (currency_tax_step (tz_step data tzLookup) city (some "FL"))))).currency
        = some "USD"
    rw [h4.1, h2, h1.1, hcur, hfl]
    simp
  · show (language_step (check_out_step (check_in_step
      (currency_tax_step (tz_step data tzLookup) city (some "FL"))))).tax_rate
        = some 13.0
    rw [h4.2, h3, h1.2, htax, hfl]
    simp

/-- **C8, witness.**  Applying the theorem to an entirely empty researched
profile. -/
theorem C8_florida_defaults_witness :
    (apply_defaults {} "Miami" (some "FL") tzConst).currency = some "USD" ∧
      (apply_defaults {} "Miami" (some "FL") tzConst).tax_rate = some 13.0 := by
  have h := C8_florida_defaults {} "Miami" tzConst (by decide) (by decide)
  exact ⟨h.1, h.2.1⟩

theorem noUsableData_shape {r : SourceResult} (h : r.noUsableData) :
    r = { error := r.error, confidence := r.confidence } := by
  obtain ⟨⟨h1, h2, h3, h4, h5, h6, h7, h8, h9, h10, h11, h12, h13, h14⟩, _⟩ := h
  cases r
  simp_all

theorem succeededB_no_usable (e : Option String) (c : Option ℚ)
    (h : c = none ∨ (c = some 0 ∧ e.isSome = true)) :
    succeededB { error := e, confidence := c } = false := by
  rcases h with rfl | ⟨rfl, he⟩
  · cases e <;> rfl
  · cases e with
    | none => simp at he
    | some m => rfl

theorem conf_getD_zero {c : Option ℚ} {e : Option String}
    (h : c = none ∨ (c = some 0 ∧ e.isSome = true)) : c.getD 0 = 0 := by
  rcases h with rfl | ⟨rfl, _⟩ <;> rfl

theorem assemble_confidence (hotel_name city : String) (state : Option String)
    (rs : Results) (tzLookup : ℚ → ℚ → String) :
    (assembleProfile hotel_name city state rs tzLookup).overall_confidence =
      some (calculate_overall_confidence
        (apply_defaults (merge_data_multi_source rs.perplexity rs.openai
          rs.anthropic rs.gemini rs.google_places rs.website) city state
          tzLookup) rs) := rfl

theorem assemble_sources_used (hotel_name city : String) (state : Option String)
    (rs : Results) (tzLookup : ℚ → ℚ → String) :
    (assembleProfile hotel_name city state rs tzLookup).sources_used =
      ((resultsList rs).filter fun p => succeededB p.2).map Prod.fst := rfl

theorem calculate_zero (data : Profile) (rs : Results)
    (hs : (resultsList rs).filter (fun p => succeededB p.2) = [])
    (hcrit : criticalFieldCount data = 0)
    (hpc : rs.perplexity.confidence.getD 0 = 0)
    (hwc : rs.website.confidence.getD 0 = 0) :
    calculate_overall_confidence data rs = 0 := by
  unfold calculate_overall_confidence
  rw [hs, hcrit, hpc, hwc]
  norm_num [min_def]

/-- **C7, counterexample.**  The claim requires the Defaults Applier to
populate the timezone from city/state alone when zero sources return usable
data; the code derives a timezone only from GPS coordinates, so with no
research data the returned profile's timezone stays null. -/
theorem C7_counterexample :
    (assembleProfile "Hotel" "Miami" (some "FL") resultsAllFailed
      tzConst).timezone = none := rfl

/-- **C7, amended.**  If zero sources return usable data (every result is an
empty dictionary, an error dictionary, or an error dictionary additionally
carrying the failed source's 0.0 self-reported confidence — the shapes the
program's failure paths produce), the returned profile has overall
confidence exactly 0.0 and every researched field null or empty, while the
Defaults Applier still populates currency, tax rate, check-in/check-out
times and language from the query's location alone; the timezone is **not**
populated (it would require GPS coordinates, which are absent). -/
theorem C7_zero_usable_data (hotel_name city : String) (state : Option String)
    (rs : Results) (tzLookup : ℚ → ℚ → String)
    (hp : rs.perplexity.noUsableData) (ho : rs.openai.noUsableData)
    (ha : rs.anthropic.noUsableData) (hg : rs.gemini.noUsableData)
    (hgp : rs.google_places.noUsableData) (hw : rs.website.noUsableData) :
    (assembleProfile hotel_name city state rs tzLookup).overall_confidence
        = some 0 ∧
    (assembleProfile hotel_name city state rs tzLookup).hotel_name = none ∧
    (assembleProfile hotel_name city state rs tzLookup).address = none ∧
    (assembleProfile hotel_name city state rs tzLookup).phone = none ∧
    (assembleProfile hotel_name city state rs tzLookup).website = none ∧
    (assembleProfile hotel_name city state rs tzLookup).description = none ∧
    (assembleProfile hotel_name city state rs tzLookup).room_types = [] ∧
    (assembleProfile hotel_name city state rs tzLookup).amenities = [] ∧
    (assembleProfile hotel_name city state rs tzLookup).photos = none ∧
    (assembleProfile hotel_name city state rs tzLookup).total_rooms = none ∧
    (assembleProfile hotel_name city state rs tzLookup).latitude = none ∧
    (assembleProfile hotel_name city state rs tzLookup).longitude = none ∧
    (assembleProfile hotel_name city state rs tzLookup).policies = [] ∧
    (assembleProfile hotel_name city state rs tzLookup).timezone = none ∧
    (assembleProfile hotel_name city state rs tzLookup).currency = some "USD" ∧
    (assembleProfile hotel_name city state rs tzLookup).tax_rate.isSome
        = true ∧
    (assembleProfile hotel_name city state rs tzLookup).check_in_time
        = some "3:00 PM" ∧
    (assembleProfile hotel_name city state rs tzLookup).check_out_time
        = some "11:00 AM" ∧
    (assembleProfile hotel_name city state rs tzLookup).language = some "en" ∧
    (assembleProfile hotel_name city state rs tzLookup).sources_used = [] := by
  obtain ⟨p, o, a, g, gp, w⟩ := rs
  obtain ⟨ep, cp, rfl⟩ : ∃ e c, p = { error := e, confidence := c } :=
    ⟨p.error, p.confidence, noUsableData_shape hp⟩
  obtain ⟨eo, co, rfl⟩ : ∃ e c, o = { error := e, confidence := c } :=
    ⟨o.error, o.confidence, noUsableData_shape ho⟩
  obtain ⟨ea, ca, rfl⟩ : ∃ e c, a = { error := e, confidence := c } :=
    ⟨a.error, a.confidence, noUsableData_shape ha⟩
  obtain ⟨eg, cg, rfl⟩ : ∃ e c, g = { error := e, confidence := c } :=
    ⟨g.error, g.confidence, noUsableData_shape hg⟩
  obtain ⟨egp, cgp, rfl⟩ : ∃ e c, gp = { error := e, confidence := c } :=
    ⟨gp.error, gp.confidence, noUsableData_shape hgp⟩
  obtain ⟨ew, cw, rfl⟩ : ∃ e c, w = { error := e, confidence := c } :=
    ⟨w.error, w.confidence, noUsableData_shape hw⟩
  have s1 : succeededB { error := ep, confidence := cp } = false :=
    succeededB_no_usable ep cp hp.2
  have s2 : succeededB { error := eo, confidence := co } = false :=
    succeededB_no_usable eo co ho.2
  have s3 : succeededB { error := ea, confidence := ca } = false :=
    succeededB_no_usable ea ca ha.2
  have s4 : succeededB { error := eg, confidence := cg } = false :=
    succeededB_no_usable eg cg hg.2
  have s5 : succeededB { error := egp, confidence := cgp } = false :=
    succeededB_no_usable egp cgp hgp.2
  have s6 : succeededB { error := ew, confidence := cw } = false :=
    succeededB_no_usable ew cw hw.2
  have hfilter : ((resultsList ⟨{ error := ep, confidence := cp },
      { error := eo, confidence := co }, { error := ea, confidence := ca },
      { error := eg, confidence := cg }, { error := egp, confidence := cgp },
      { error := ew, confidence := cw }⟩).filter
        fun q => succeededB q.2) = [] := by
    simp [resultsList, s1, s2, s3, s4, s5, s6]
  have hcrit : criticalFieldCount (apply_defaults (merge_data_multi_source
      { error := ep, confidence := cp } { error := eo, confidence := co }
      { error := ea, confidence := ca } { error := eg, confidence := cg }
      { error := egp, confidence := cgp } { error := ew, confidence := cw })
      city state tzLookup) = 0 := rfl
  refine ⟨?_, rfl, rfl, rfl, rfl, rfl, rfl, rfl, rfl, rfl, rfl, rfl, rfl, rfl,
    rfl, rfl, rfl, rfl, rfl, ?_⟩
  · rw [assemble_confidence, calculate_zero _ _ hfilter hcrit
      (conf_getD_zero hp.2) (conf_getD_zero hw.2)]
  · rw [assemble_sources_used, hfilter]
    rfl

/-- **C7, amended, witness.**  A concrete all-failed run: confidence is
exactly 0, the hotel name stays null, the currency and check-in time are
defaulted, and the timezone is not populated. -/
theorem C7_zero_usable_data_witness :
    (assembleProfile "Hotel" "Miami" (some "FL") resultsAllFailed
        tzConst).overall_confidence = some 0 ∧
    (assembleProfile "Hotel" "Miami" (some "FL") resultsAllFailed
        tzConst).hotel_name = none ∧
    (assembleProfile "Hotel" "Miami" (some "FL") resultsAllFailed
        tzConst).currency = some "USD" ∧
    (assembleProfile "Hotel" "Miami" (some "FL") resultsAllFailed
        tzConst).check_in_time = some "3:00 PM" := by
  have h := C7_zero_usable_data "Hotel" "Miami" (some "FL") resultsAllFailed
    tzConst (by decide) (by decide) (by decide) (by decide) (by decide)
    (by decide)
  exact ⟨h.1, h.2.1, h.2.2.2.2.2.2.2.2.2.2.2.2.2.2.1, h.2.2.2.2.2.2.2.2.2.2.2.2.2.2.2.2.1⟩

theorem update_fst (k : String) (room : Room) (q : String × Room) :
    (if q.1 == k then (q.1, fillRoom q.2 room) else q).1 = q.1 := by
  split <;> rfl

theorem filter_true_eq (l : List Room) : (l.filter fun _ => true) = l := by
  induction l with
  | nil => rfl
  | cons a as ih => simp [List.filter_cons, ih]

theorem aggStep_foldl_eq (rooms : List Room) : ∀ (acc : List (String × Room)),
    (acc.map Prod.fst).Nodup → (∀ q ∈ acc, q.1 ≠ "") →
    rooms.foldl aggStep acc =
      (acc.map fun q => (q.1,
        ((rooms.filter fun r => normKey r == q.1).foldl fillRoom q.2))) ++
      specAggA (rooms.filter fun r =>
        !((acc.map Prod.fst).contains (normKey r))) := by
  induction rooms with
  | nil =>
    intro acc _ _
    simp [specAggA]
  | cons r rs ih =>
    intro acc hnd hne
    have hnotmem_empty : "" ∉ acc.map Prod.fst := by
      intro hmem
      obtain ⟨q, hq, hq1⟩ := List.mem_map.mp hmem
      exact hne q hq hq1
    simp only [List.foldl_cons]
    by_cases hk : normKey r = ""
    · -- an empty normalised name is skipped by both sides
      have hstep : aggStep acc r = acc := by
        simp [aggStep, hk]
      have hcont : (acc.map Prod.fst).contains (normKey r) = false := by
        rw [hk]
        simpa using hnotmem_empty
      rw [hstep, ih acc hnd hne]
      congr 1
      · apply List.map_congr_left
        intro q hq
        have : (normKey r == q.1) = false := by
          rw [hk]
          simpa using (hne q hq).symm
        rw [List.filter_cons, this]
        simp
      · rw [List.filter_cons, hcont]
        simp only [Bool.not_false, if_true]
        rw [specAggA]
        have : (normKey r == "") = true := by simpa using hk
        simp only [this, if_true]
    · have hkb : (normKey r == "") = false := by simpa using hk
      by_cases hmem : normKey r ∈ acc.map Prod.fst
      · -- existing key: the entry is filled in place
        have hcont : (acc.map Prod.fst).contains (normKey r) = true := by
          simpa using hmem
        have hstep : aggStep acc r = acc.map fun q =>
            if q.1 == normKey r then (q.1, fillRoom q.2 r) else q := by
          simp only [aggStep]
          rw [hkb, hcont]
          simp
        have hfst : ((acc.map fun q =>
            if q.1 == normKey r then (q.1, fillRoom q.2 r) else q).map Prod.fst)
              = acc.map Prod.fst := by
          rw [List.map_map]
          apply List.map_congr_left
          intro q _
          exact update_fst (normKey r) r q
        have hne' : ∀ q ∈ (acc.map fun q =>
            if q.1 == normKey r then (q.1, fillRoom q.2 r) else q), q.1 ≠ "" := by
          intro q hq
          obtain ⟨q₀, hq₀, rfl⟩ := List.mem_map.mp hq
          rw [update_fst]
          exact hne q₀ hq₀
        rw [hstep, ih _ (hfst ▸ hnd) hne']
        congr 1
        · rw [List.map_map]
          apply List.map_congr_left
          intro q hq
          by_cases hq1 : q.1 = normKey r
          · have hb : (q.1 == normKey r) = true := by simpa using hq1
            have hb2 : (normKey r == q.1) = true := by simpa using hq1.symm
            simp [Function.comp, hb, hb2, List.filter_cons]
          · have hb : (q.1 == normKey r) = false := by simpa using hq1
            have hb2 : (normKey r == q.1) = false := by
              simpa using fun h => hq1 h.symm
            simp [Function.comp, hb, hb2, List.filter_cons]
        · rw [hfst, List.filter_cons, hcont]
          simp
      · -- new key: the entry is appended
        have hcont : (acc.map Prod.fst).contains (normKey r) = false := by
          simpa using hmem
        have hstep : aggStep acc r = acc ++ [(normKey r, r)] := by
          simp only [aggStep]
          rw [hkb, hcont]
          simp
        have hnd' : (((acc ++ [(normKey r, r)]).map Prod.fst)).Nodup := by
          rw [List.map_append]
          simp only [List.map_cons, List.map_nil]
          rw [List.nodup_append]
          refine ⟨hnd, List.nodup_singleton _, ?_⟩
          intro a ha hb
          simp only [List.mem_singleton] at hb
          exact hmem (hb ▸ ha)
        have hne' : ∀ q ∈ acc ++ [(normKey r, r)], q.1 ≠ "" := by
          intro q hq
          rcases List.mem_append.mp hq with hq | hq
          · exact hne q hq
          · simp only [List.mem_singleton] at hq
            rw [hq]
            exact hk
        rw [hstep, ih _ hnd' hne']
        have hB : ((acc ++ [(normKey r, r)]).map Prod.fst)
            = acc.map Prod.fst ++ [normKey r] := by
          rw [List.map_append]
          rfl
        rw [hB]
        have hA : ((acc ++ [(normKey r, r)]).map fun q => (q.1,
            ((rs.filter fun x => normKey x == q.1).foldl fillRoom q.2)))
              = (acc.map fun q => (q.1,
                ((rs.filter fun x => normKey x == q.1).foldl fillRoom q.2)))
                ++ [(normKey r,
                  (rs.filter fun x => normKey x == normKey r).foldl fillRoom r)] := by
          rw [List.map_append]
          rfl
        rw [hA]
        have hC : ((r :: rs).filter fun x =>
            !((acc.map Prod.fst).contains (normKey x)))
              = r :: (rs.filter fun x =>
                !((acc.map Prod.fst).contains (normKey x))) := by
          rw [List.filter_cons, hcont]
          simp
        rw [hC]
        rw [specAggA]
        simp only [hkb, Bool.false_eq_true, if_false]
        have hE : ((rs.filter fun x =>
            !((acc.map Prod.fst).contains (normKey x))).filter fun x =>
              normKey x == normKey r)
              = rs.filter fun x => normKey x == normKey r := by
          rw [List.filter_filter]
          apply List.filter_congr
          intro a _
          by_cases hak : normKey a = normKey r
          · have h1 : (normKey a == normKey r) = true := by simpa using hak
            have h2 : (acc.map Prod.fst).contains (normKey a) = false := by
              rw [hak]; exact hcont
            rw [h1, h2]
            rfl
          · have h1 : (normKey a == normKey r) = false := by simpa using hak
            rw [h1]
            simp
        have hF : ((rs.filter fun x =>
            !((acc.map Prod.fst).contains (normKey x))).filter fun x =>
              normKey x != normKey r)
              = rs.filter fun x =>
                !((acc.map Prod.fst ++ [normKey r]).contains (normKey x)) := by
          rw [List.filter_filter]
          apply List.filter_congr
          intro a _
          by_cases h1 : normKey a ∈ acc.map Prod.fst <;>
            by_cases h2 : normKey a = normKey r <;>
              simp [h1, h2, List.mem_append]
        rw [hE, hF]
        have hmap : (acc.map fun q => (q.1,
            (((r :: rs).filter fun x => normKey x == q.1).foldl fillRoom q.2)))
              = acc.map fun q => (q.1,
                ((rs.filter fun x => normKey x == q.1).foldl fillRoom q.2)) := by
          apply List.map_congr_left
          intro q hq
          have hq1 : normKey r ≠ q.1 := by
            intro h
            exact hmem (h ▸ List.mem_map_of_mem Prod.fst hq)
          have hb : (normKey r == q.1) = false := by simpa using hq1
          rw [List.filter_cons, hb]
          simp
        rw [hmap, List.append_assoc]
        rfl

/-- The room-types field and its provenance tag, exposed as the branch of
`_merge_data_multi_source` they come from. -/
theorem merge_room_types_def (perplexity openai anthropic gemini google_places
    website : SourceResult) :
    (merge_data_multi_source perplexity openai anthropic gemini google_places
        website).room_types =
      (if (perplexity.room_types.getD []).isEmpty = true then
        (aggregate_room_types [openai.room_types.getD [],
          anthropic.room_types.getD [], gemini.room_types.getD [],
          website.room_types.getD []], "AI aggregation (fallback)")
      else (perplexity.room_types.getD [],
        "Perplexity (web-grounded)")).1 ∧
    (merge_data_multi_source perplexity openai anthropic gemini google_places
        website).source_room_types =
      some (if (perplexity.room_types.getD []).isEmpty = true then
        (aggregate_room_types [openai.room_types.getD [],
          anthropic.room_types.getD [], gemini.room_types.getD [],
          website.room_types.getD []], "AI aggregation (fallback)")
      else (perplexity.room_types.getD [],
        "Perplexity (web-grounded)")).2 :=
  ⟨rfl, rfl⟩

theorem aggregate_eq_spec (l1 l2 l3 l4 : List Room) :
    aggregate_room_types [l1, l2, l3, l4] =
      specAggregateRooms (l1 ++ l2 ++ l3 ++ l4) := by
  have h := aggStep_foldl_eq (l1 ++ l2 ++ l3 ++ l4) [] (by simp) (by simp)
  simp only [List.map_nil, List.nil_append] at h
  have hfix : ((l1 ++ l2 ++ l3 ++ l4).filter fun r =>
      !(([] : List String).contains (normKey r))) = l1 ++ l2 ++ l3 ++ l4 := by
    have : ∀ r : Room, (!(([] : List String).contains (normKey r))) = true := by
      intro r
      rfl
    calc ((l1 ++ l2 ++ l3 ++ l4).filter fun r =>
        !(([] : List String).contains (normKey r)))
        = (l1 ++ l2 ++ l3 ++ l4).filter fun _ => true :=
          List.filter_congr fun r _ => this r
      _ = l1 ++ l2 ++ l3 ++ l4 := filter_true_eq _
  rw [hfix] at h
  unfold aggregate_room_types specAggregateRooms
  simp only [List.foldl_cons, List.foldl_nil]
  rw [show (l4.foldl aggStep (l3.foldl aggStep (l2.foldl aggStep
      (l1.foldl aggStep [])))) = (l1 ++ l2 ++ l3 ++ l4).foldl aggStep [] from by
    rw [List.foldl_append, List.foldl_append, List.foldl_append]]
  rw [h]

/-- **C6.**  If the web-search-grounded source (Perplexity) returns a
non-empty room-type list, Merge uses that list exclusively and tags the
provenance `"Perplexity (web-grounded)"`; otherwise Merge aggregates the
remaining sources' room types (OpenAI, Anthropic, Gemini, Website — in that
order) by normalised room name (lower-cased, trimmed), filling each missing
sub-field from whichever source has it with first-write-wins per sub-field
(`specAggregateRooms`), and tags the provenance
`"AI aggregation (fallback)"`. -/
theorem C6_room_types_strategy (perplexity openai anthropic gemini
    google_places website : SourceResult) :
    (perplexity.room_types.getD [] ≠ [] →
      (merge_data_multi_source perplexity openai anthropic gemini google_places
          website).room_types = perplexity.room_types.getD [] ∧
      (merge_data_multi_source perplexity openai anthropic gemini google_places
          website).source_room_types = some "Perplexity (web-grounded)") ∧
    (perplexity.room_types.getD [] = [] →
      (merge_data_multi_source perplexity openai anthropic gemini google_places
          website).room_types =
        specAggregateRooms (openai.room_types.getD [] ++
          anthropic.room_types.getD [] ++ gemini.room_types.getD [] ++
          website.room_types.getD []) ∧
      (merge_data_multi_source perplexity openai anthropic gemini google_places
          website).source_room_types = some "AI aggregation (fallback)") := by
  obtain ⟨hroom, htag⟩ := merge_room_types_def perplexity openai anthropic
    gemini google_places website
  constructor
  · intro h
    have hcond : ¬((perplexity.room_types.getD []).isEmpty = true) := by
      simpa [List.isEmpty_iff] using h
    rw [hroom, htag, if_neg hcond]
    exact ⟨rfl, rfl⟩
  · intro h
    have hcond : (perplexity.room_types.getD []).isEmpty = true := by
      simp [h]
    rw [hroom, htag, if_pos hcond]
    exact ⟨aggregate_eq_spec _ _ _ _, rfl⟩

/-- **C6, witness.**  Perplexity returns nothing; the OpenAI room
`"Queen Room"` and the Anthropic room `"  queen room"` share a normalised
name, so the fallback aggregation applies with first-write-wins
sub-fields. -/
theorem C6_room_types_strategy_witness :
    (merge_data_multi_source {} roomsFromOpenAI roomsFromAnthropic {} {}
        {}).room_types =
      specAggregateRooms (roomsFromOpenAI.room_types.getD [] ++
        roomsFromAnthropic.room_types.getD [] ++
        (({} : SourceResult).room_types.getD []) ++
        (({} : SourceResult).room_types.getD [])) ∧
    (merge_data_multi_source {} roomsFromOpenAI roomsFromAnthropic {} {}
        {}).source_room_types = some "AI aggregation (fallback)" :=
  (C6_room_types_strategy {} roomsFromOpenAI roomsFromAnthropic {} {} {}).2 rfl

end StayFull
